import Mathlib

/-!
Verification of the CTP API include shim `src/inspirai-trader/src-tauri/wrapper.h`.

The artifact under study is a two-include aggregation header guarded by the
`WRAPPER_H` include guard.  We embed the file as its list of physical source
lines, classify each line the way the C preprocessor does, and give a small
操作semantics of the preprocessor over an abstract file system in which the two
vendor header trees (which are not part of the repository) appear as opaque
values carrying their declarations, their defined names and a well-formedness
bit.  All claims about the shim are settled against this embedding.
-/

namespace Wrapper

/-- A physical line of a header file, as the C preprocessor classifies it. -/
inductive Line where
  | comment (text : String)
  | blank
  | ifndefD (name : String)
  | defineD (name : String)
  | includeD (path : String)
  | endifD (trailing : String)
  | other (text : String)
deriving DecidableEq, Repr

/-- Strip leading and trailing spaces from a character list. -/
def trimChars (l : List Char) : List Char :=
  ((l.dropWhile (fun c => c = ' ')).reverse.dropWhile (fun c => c = ' ')).reverse

/-- Rebuild a string from its characters. -/
def strOf (l : List Char) : String := String.mk l

/-- Classify one raw source line: blank lines, `//` comments, the four
preprocessor directives occurring in the file, and anything else (`other`,
which would be ordinary C++ code).  Character-list operations are used so the
classification evaluates inside the kernel. -/
def parseLine (s : String) : Line :=
  let t := trimChars s.data
  if t = [] then .blank
  else if ['/', '/'].isPrefixOf t then .comment (strOf (trimChars (t.drop 2)))
  else if ['#', 'i', 'f', 'n', 'd', 'e', 'f'].isPrefixOf t then
    .ifndefD (strOf (trimChars (t.drop 7)))
  else if ['#', 'd', 'e', 'f', 'i', 'n', 'e'].isPrefixOf t then
    .defineD (strOf (trimChars (t.drop 7)))
  else if ['#', 'i', 'n', 'c', 'l', 'u', 'd', 'e'].isPrefixOf t then
    .includeD (strOf (((trimChars (t.drop 8)).drop 1).takeWhile (fun c => c ≠ '"')))
  else if ['#', 'e', 'n', 'd', 'i', 'f'].isPrefixOf t then
    .endifD (strOf (trimChars (t.drop 6)))
  else .other (strOf t)

/-- The thirteen physical lines of `wrapper.h`, transcribed verbatim.  The
file ends without a final newline, so tools that count newline characters
report 12. -/
def wrapperHText : List String :=
  [ "// CTP API C++ 头文件包装器",
    "// 用于 bindgen 生成 Rust FFI 绑定",
    "",
    "#ifndef WRAPPER_H",
    "#define WRAPPER_H",
    "",
    "// 行情 API",
    "#include \"thostmduserapi_se.framework/Versions/A/Headers/ThostFtdcMdApi.h\"",
    "",
    "// 交易 API",
    "#include \"thosttraderapi_se.framework/Versions/A/Headers/ThostFtdcTraderApi.h\"",
    "",
    "#endif // WRAPPER_H" ]

/-- Include path of the market-data vendor header. -/
def mdPath : String :=
  "thostmduserapi_se.framework/Versions/A/Headers/ThostFtdcMdApi.h"

/-- Include path of the trading vendor header. -/
def traderPath : String :=
  "thosttraderapi_se.framework/Versions/A/Headers/ThostFtdcTraderApi.h"

/-- The wrapper file, with every line classified: two leading comments, the
include guard, the two vendor includes with their comments, blanks, and the
closing `endif`. -/
def wrapperH : List Line :=
  [ .comment "CTP API C++ 头文件包装器",
    .comment "用于 bindgen 生成 Rust FFI 绑定",
    .blank,
    .ifndefD "WRAPPER_H",
    .defineD "WRAPPER_H",
    .blank,
    .comment "行情 API",
    .includeD mdPath,
    .blank,
    .comment "交易 API",
    .includeD traderPath,
    .blank,
    .endifD "// WRAPPER_H" ]

/-- Classifying the verbatim text of the file line by line yields exactly
`wrapperH`: the classified form is faithful to the source text. -/
theorem wrapperH_parses : wrapperHText.map parseLine = wrapperH := by
  decide

/-- Abstract model of a vendor header tree.  The two CTP headers are
vendor-supplied and not part of the repository, so each is opaque: it carries
the list of declarations its textual inclusion contributes, the list of
preprocessor names it defines, and whether it parses (is well-formed). -/
structure VendorHeader where
  decls : List String
  defines : List String
  wellFormed : Bool
deriving DecidableEq, Repr

/-- Compile-time failures of preprocessing. -/
inductive PPError where
  | missingHeader (path : String)
  | malformedHeader (path : String)
  | unbalancedConditional
deriving DecidableEq, Repr

/-- One item of the expanded translation unit: either the content pulled in
from an included header, or a line of code originating in the file itself. -/
inductive Emitted where
  | fromHeader (path : String) (decls : List String)
  | ownCode (text : String)
deriving DecidableEq, Repr

/-- Preprocess a list of classified lines against a file system `fs` mapping
include paths to vendor headers.  `defs` is the set of defined names and
`ctx` the stack of enclosing conditionals (`true` = branch taken).  Emits the
expanded translation unit together with the final set of defined names, or a
compile-time error. -/
def runPP (fs : List (String × VendorHeader)) :
    List Line → List String → List Bool →
    Except PPError (List Emitted × List String)
  | [], defs, [] => .ok ([], defs)
  | [], _, _ :: _ => .error .unbalancedConditional
  | .comment _ :: rest, defs, ctx => runPP fs rest defs ctx
  | .blank :: rest, defs, ctx => runPP fs rest defs ctx
  | .other t :: rest, defs, ctx =>
      if ctx.all id then
        match runPP fs rest defs ctx with
        | .ok (out, defs1) => .ok (.ownCode t :: out, defs1)
        | .error e => .error e
      else runPP fs rest defs ctx
  | .ifndefD n :: rest, defs, ctx =>
      runPP fs rest defs ((ctx.all id && !(defs.contains n)) :: ctx)
  | .defineD n :: rest, defs, ctx =>
      if ctx.all id then runPP fs rest (n :: defs) ctx
      else runPP fs rest defs ctx
  | .includeD p :: rest, defs, ctx =>
      if ctx.all id then
        match fs.lookup p with
        | none => .error (.missingHeader p)
        | some h =>
          if h.wellFormed then
            match runPP fs rest (h.defines ++ defs) ctx with
            | .ok (out, defs1) => .ok (.fromHeader p h.decls :: out, defs1)
            | .error e => .error e
          else .error (.malformedHeader p)
      else runPP fs rest defs ctx
  | .endifD _ :: rest, defs, ctx =>
      match ctx with
      | [] => .error .unbalancedConditional
      | _ :: ctx1 => runPP fs rest defs ctx1

/-- Preprocess `wrapper.h` itself, starting from defined names `defs`. -/
def preprocess (fs : List (String × VendorHeader)) (defs : List String) :
    Except PPError (List Emitted × List String) :=
  runPP fs wrapperH defs []

/-- The declarations of the expanded translation unit, in order. -/
def emittedDecls : List Emitted → List String
  | [] => []
  | .fromHeader _ ds :: rest => ds ++ emittedDecls rest
  | .ownCode _ :: rest => emittedDecls rest

/-- The include paths expanded into the translation unit, in order. -/
def includedPaths : List Emitted → List String
  | [] => []
  | .fromHeader p _ :: rest => p :: includedPaths rest
  | .ownCode _ :: rest => includedPaths rest

/-- The lines of code the file contributes on its own (not via inclusion). -/
def ownLines : List Emitted → List String
  | [] => []
  | .fromHeader _ _ :: rest => ownLines rest
  | .ownCode t :: rest => t :: ownLines rest

/-- `true` when the header at path `p` is present in `fs` and well-formed. -/
def headerOk (fs : List (String × VendorHeader)) (p : String) : Bool :=
  match fs.lookup p with
  | some h => h.wellFormed
  | none => false

/-- Modelled from the spec: the binding generator (a tool that parses native
headers to emit foreign-function-interface declarations usable from another
language) is not part of the repository; it is modelled as emitting one
foreign-function-interface declaration per native declaration of the
expanded translation unit. -/
def bindgen (out : List Emitted) : List String :=
  (emittedDecls out).map (fun d => String.append "ffi " d)

/-- A sample well-formed market-data vendor header, for concrete runs. -/
def mdSample : VendorHeader :=
  ⟨["class CThostFtdcMdApi", "class CThostFtdcMdSpi"], ["THOST_FTDC_MD_API"], true⟩

/-- A sample well-formed trading vendor header, for concrete runs. -/
def traderSample : VendorHeader :=
  ⟨["class CThostFtdcTraderApi", "class CThostFtdcTraderSpi"], ["THOST_FTDC_TRADER_API"], true⟩

/-- A sample file system holding both vendor header trees. -/
def fsSample : List (String × VendorHeader) :=
  [(mdPath, mdSample), (traderPath, traderSample)]

/-- A fully concrete run of the preprocessor on the sample file system. -/
theorem preprocess_sample_run :
    preprocess fsSample [] =
      .ok ([.fromHeader mdPath mdSample.decls, .fromHeader traderPath traderSample.decls],
        traderSample.defines ++ mdSample.defines ++ ["WRAPPER_H"]) := by
  rfl

/-- Main characterisation of a successful run: with the guard not yet defined
and both vendor headers present and well-formed, preprocessing `wrapper.h`
emits exactly the two vendor inclusions, in source order, and additionally
defines `WRAPPER_H` plus whatever the vendor headers define. -/
theorem preprocess_success (fs : List (String × VendorHeader)) (mh th : VendorHeader)
    (defs0 : List String)
    (hmd : fs.lookup mdPath = some mh) (hmdwf : mh.wellFormed = true)
    (htr : fs.lookup traderPath = some th) (htrwf : th.wellFormed = true)
    (hguard : "WRAPPER_H" ∉ defs0) :
    preprocess fs defs0 =
      .ok ([Emitted.fromHeader mdPath mh.decls, Emitted.fromHeader traderPath th.decls],
        th.defines ++ mh.defines ++ "WRAPPER_H" :: defs0) := by
  simp [preprocess, wrapperH, runPP, hguard, hmd, hmdwf, htr, htrwf]

/-- If `WRAPPER_H` is already defined, preprocessing `wrapper.h` emits
nothing and changes nothing. -/
theorem preprocess_skip (fs : List (String × VendorHeader)) (defs : List String)
    (hguard : "WRAPPER_H" ∈ defs) :
    preprocess fs defs = .ok ([], defs) := by
  simp [preprocess, wrapperH, runPP, hguard]

/-- If the market-data header is absent, preprocessing fails. -/
theorem preprocess_md_missing (fs : List (String × VendorHeader)) (defs0 : List String)
    (hguard : "WRAPPER_H" ∉ defs0)
    (hmd : fs.lookup mdPath = none) :
    preprocess fs defs0 = .error (.missingHeader mdPath) := by
  simp [preprocess, wrapperH, runPP, hguard, hmd]

/-- If the market-data header is present but malformed, preprocessing fails. -/
theorem preprocess_md_malformed (fs : List (String × VendorHeader)) (mh : VendorHeader)
    (defs0 : List String)
    (hguard : "WRAPPER_H" ∉ defs0)
    (hmd : fs.lookup mdPath = some mh) (hmdwf : mh.wellFormed = false) :
    preprocess fs defs0 = .error (.malformedHeader mdPath) := by
  simp [preprocess, wrapperH, runPP, hguard, hmd, hmdwf]

/-- If the trading header is absent, preprocessing fails. -/
theorem preprocess_tr_missing (fs : List (String × VendorHeader)) (mh : VendorHeader)
    (defs0 : List String)
    (hguard : "WRAPPER_H" ∉ defs0)
    (hmd : fs.lookup mdPath = some mh) (hmdwf : mh.wellFormed = true)
    (htr : fs.lookup traderPath = none) :
    preprocess fs defs0 = .error (.missingHeader traderPath) := by
  simp [preprocess, wrapperH, runPP, hguard, hmd, hmdwf, htr]

/-- If the trading header is present but malformed, preprocessing fails. -/
theorem preprocess_tr_malformed (fs : List (String × VendorHeader)) (mh th : VendorHeader)
    (defs0 : List String)
    (hguard : "WRAPPER_H" ∉ defs0)
    (hmd : fs.lookup mdPath = some mh) (hmdwf : mh.wellFormed = true)
    (htr : fs.lookup traderPath = some th) (htrwf : th.wellFormed = false) :
    preprocess fs defs0 = .error (.malformedHeader traderPath) := by
  simp [preprocess, wrapperH, runPP, hguard, hmd, hmdwf, htr, htrwf]

/-- After any successful preprocessing of `wrapper.h`, the guard name
`WRAPPER_H` is among the defined names. -/
theorem guard_defined_afterwards (fs : List (String × VendorHeader))
    (defs0 : List String) (out : List Emitted) (defs1 : List String)
    (h : preprocess fs defs0 = .ok (out, defs1)) :
    "WRAPPER_H" ∈ defs1 := by
  by_cases hg : "WRAPPER_H" ∈ defs0
  · rw [preprocess_skip fs defs0 hg] at h
    simp only [Except.ok.injEq, Prod.mk.injEq] at h
    rw [← h.2]
    exact hg
  · rcases hmd : fs.lookup mdPath with _ | mh
    · rw [preprocess_md_missing fs defs0 hg hmd] at h; simp at h
    · rcases hmdwf : mh.wellFormed with _ | _
      · rw [preprocess_md_malformed fs mh defs0 hg hmd hmdwf] at h; simp at h
      · rcases htr : fs.lookup traderPath with _ | th
        · rw [preprocess_tr_missing fs mh defs0 hg hmd hmdwf htr] at h; simp at h
        · rcases htrwf : th.wellFormed with _ | _
          · rw [preprocess_tr_malformed fs mh th defs0 hg hmd hmdwf htr htrwf] at h
            simp at h
          · rw [preprocess_success fs mh th defs0 hmd hmdwf htr htrwf hg] at h
            simp only [Except.ok.injEq, Prod.mk.injEq] at h
            rw [← h.2]
            simp [List.mem_append]

/-- Is the line a preprocessor directive? -/
def Line.isDirective : Line → Bool
  | .ifndefD _ => true
  | .defineD _ => true
  | .includeD _ => true
  | .endifD _ => true
  | _ => false

/-- Is the line a comment? -/
def Line.isComment : Line → Bool
  | .comment _ => true
  | _ => false

/-- Is the line blank? -/
def Line.isBlank : Line → Bool
  | .blank => true
  | _ => false

/-- C1: in every configuration where both vendor header trees are present
and well-formed and the guard is not yet defined, preprocessing `wrapper.h`
expands to the textual inclusion of exactly two header trees — the
market-data header and the trading header — aggregated into one translation
unit, with no other header exposed to the binding generator. -/
theorem c1_exactly_two_vendor_headers (fs : List (String × VendorHeader))
    (mh th : VendorHeader) (defs0 : List String)
    (hmd : fs.lookup mdPath = some mh) (hmdwf : mh.wellFormed = true)
    (htr : fs.lookup traderPath = some th) (htrwf : th.wellFormed = true)
    (hguard : "WRAPPER_H" ∉ defs0) :
    ∃ out defs1, preprocess fs defs0 = .ok (out, defs1) ∧
      includedPaths out = [mdPath, traderPath] :=
  ⟨_, _, preprocess_success fs mh th defs0 hmd hmdwf htr htrwf hguard, by
    simp [includedPaths]⟩

/-- C1 witness: a concrete configuration holding both vendor headers. -/
theorem c1_witness :
    fsSample.lookup mdPath = some mdSample ∧ mdSample.wellFormed = true ∧
    fsSample.lookup traderPath = some traderSample ∧ traderSample.wellFormed = true ∧
    "WRAPPER_H" ∉ ([] : List String) ∧
    (∃ out defs1, preprocess fsSample [] = .ok (out, defs1) ∧
      includedPaths out = [mdPath, traderPath]) :=
  ⟨by decide, by decide, by decide, by decide, by simp,
    c1_exactly_two_vendor_headers fsSample mdSample traderSample []
      (by decide) (by decide) (by decide) (by decide) (by simp)⟩

/-- C2: starting from a clean preprocessing state, `wrapper.h` fails with a
compile-time error precisely when at least one of the two vendor header
paths is missing or malformed; whenever both vendor headers are present and
well-formed, it introduces no failure of its own. -/
theorem c2_fails_iff_vendor_header_bad (fs : List (String × VendorHeader)) :
    (∃ e, preprocess fs [] = .error e) ↔
      (headerOk fs mdPath = false ∨ headerOk fs traderPath = false) := by
  have hg : "WRAPPER_H" ∉ ([] : List String) := by simp
  rcases hmd : fs.lookup mdPath with _ | mh
  · simp [preprocess_md_missing fs [] hg hmd, headerOk, hmd]
  · rcases hmdwf : mh.wellFormed with _ | _
    · simp [preprocess_md_malformed fs mh [] hg hmd hmdwf, headerOk, hmd, hmdwf]
    · rcases htr : fs.lookup traderPath with _ | th
      · simp [preprocess_tr_missing fs mh [] hg hmd hmdwf htr, headerOk, hmd, hmdwf, htr]
      · rcases htrwf : th.wellFormed with _ | _
        · simp [preprocess_tr_malformed fs mh th [] hg hmd hmdwf htr htrwf,
            headerOk, hmd, hmdwf, htr, htrwf]
        · simp [preprocess_success fs mh th [] hmd hmdwf htr htrwf hg,
            headerOk, hmd, hmdwf, htr, htrwf]

/-- C2 witness: with an empty file system both headers are missing and
preprocessing indeed errors. -/
theorem c2_witness :
    ∃ e, preprocess ([] : List (String × VendorHeader)) [] = .error e :=
  (c2_fails_iff_vendor_header_bad []).mpr (Or.inl (by decide))

/-- C3 counterexample: the wrapper file does not consist of 12 lines all of
which are preprocessor directives or comments — it has 13 physical lines,
four of them blank. -/
theorem c3_counterexample :
    ¬ (wrapperHText.length = 12 ∧
      (wrapperHText.map parseLine).all
        (fun l => l.isDirective || l.isComment) = true) := by
  decide

/-- C3 (amended): the wrapper file consists of 13 physical lines (the file
has no trailing newline, so tools counting newline characters report 12),
and every line is a preprocessor directive, a comment, or blank — 0 lines
of original logic. -/
theorem c3_all_lines_directive_comment_or_blank :
    wrapperHText.length = 13 ∧
      (wrapperHText.map parseLine).all
        (fun l => l.isDirective || l.isComment || l.isBlank) = true := by
  decide

/-- C4: `wrapper.h` contributes no construct of its own to the translation
unit: the expansion contains no line of code originating in the file, and
its declarations are exactly those of the two included vendor headers. -/
theorem c4_no_own_constructs (fs : List (String × VendorHeader))
    (mh th : VendorHeader) (defs0 : List String)
    (hmd : fs.lookup mdPath = some mh) (hmdwf : mh.wellFormed = true)
    (htr : fs.lookup traderPath = some th) (htrwf : th.wellFormed = true)
    (hguard : "WRAPPER_H" ∉ defs0) :
    ∃ out defs1, preprocess fs defs0 = .ok (out, defs1) ∧
      ownLines out = [] ∧ emittedDecls out = mh.decls ++ th.decls :=
  ⟨_, _, preprocess_success fs mh th defs0 hmd hmdwf htr htrwf hguard, by
    simp [ownLines], by simp [emittedDecls]⟩

/-- C4 witness: the concrete configuration, run to completion. -/
theorem c4_witness :
    fsSample.lookup mdPath = some mdSample ∧ mdSample.wellFormed = true ∧
    fsSample.lookup traderPath = some traderSample ∧ traderSample.wellFormed = true ∧
    "WRAPPER_H" ∉ ([] : List String) ∧
    (∃ out defs1, preprocess fsSample [] = .ok (out, defs1) ∧
      ownLines out = [] ∧ emittedDecls out = mdSample.decls ++ traderSample.decls) :=
  ⟨by decide, by decide, by decide, by decide, by simp,
    c4_no_own_constructs fsSample mdSample traderSample []
      (by decide) (by decide) (by decide) (by decide) (by simp)⟩

/-- C5: when both vendor header trees are present and well-formed, the
aggregation header preprocesses successfully, and the binding generator run
against the expanded unit produces a non-empty set of
foreign-function-interface declarations (given that the market-data header
declares anything at all). -/
theorem c5_bindgen_nonempty (fs : List (String × VendorHeader))
    (mh th : VendorHeader) (defs0 : List String)
    (hmd : fs.lookup mdPath = some mh) (hmdwf : mh.wellFormed = true)
    (htr : fs.lookup traderPath = some th) (htrwf : th.wellFormed = true)
    (hguard : "WRAPPER_H" ∉ defs0) (hne : mh.decls ≠ []) :
    ∃ out defs1, preprocess fs defs0 = .ok (out, defs1) ∧ bindgen out ≠ [] :=
  ⟨_, _, preprocess_success fs mh th defs0 hmd hmdwf htr htrwf hguard, by
    simp [bindgen, emittedDecls, hne]⟩

/-- C5 witness: the concrete configuration yields a non-empty binding set. -/
theorem c5_witness :
    fsSample.lookup mdPath = some mdSample ∧ mdSample.wellFormed = true ∧
    fsSample.lookup traderPath = some traderSample ∧ traderSample.wellFormed = true ∧
    "WRAPPER_H" ∉ ([] : List String) ∧ mdSample.decls ≠ [] ∧
    (∃ out defs1, preprocess fsSample [] = .ok (out, defs1) ∧ bindgen out ≠ []) :=
  ⟨by decide, by decide, by decide, by decide, by simp, by decide,
    c5_bindgen_nonempty fsSample mdSample traderSample []
      (by decide) (by decide) (by decide) (by decide) (by simp) (by decide)⟩

/-- C6: inclusion of `wrapper.h` is idempotent within a translation unit:
any successful inclusion leaves the guard name `WRAPPER_H` defined, and a
subsequent inclusion in the resulting state expands to nothing and leaves
the defined names unchanged. -/
theorem c6_idempotent_inclusion (fs : List (String × VendorHeader))
    (defs0 : List String) (out : List Emitted) (defs1 : List String)
    (h : preprocess fs defs0 = .ok (out, defs1)) :
    "WRAPPER_H" ∈ defs1 ∧ preprocess fs defs1 = .ok ([], defs1) :=
  ⟨guard_defined_afterwards fs defs0 out defs1 h,
    preprocess_skip fs defs1 (guard_defined_afterwards fs defs0 out defs1 h)⟩

/-- C6 witness: a first concrete run, then the second run emits nothing. -/
theorem c6_witness :
    "WRAPPER_H" ∈ ["THOST_FTDC_TRADER_API", "THOST_FTDC_MD_API", "WRAPPER_H"] ∧
    preprocess fsSample ["THOST_FTDC_TRADER_API", "THOST_FTDC_MD_API", "WRAPPER_H"] =
      .ok ([], ["THOST_FTDC_TRADER_API", "THOST_FTDC_MD_API", "WRAPPER_H"]) :=
  c6_idempotent_inclusion fsSample []
    [Emitted.fromHeader mdPath mdSample.decls, Emitted.fromHeader traderPath traderSample.decls]
    ["THOST_FTDC_TRADER_API", "THOST_FTDC_MD_API", "WRAPPER_H"] (by rfl)

/-- C7: in the aggregated translation unit the market-data header is
included strictly before the trading header: the declarations of the
market-data tree occupy the initial segment of the expansion and those of
the trading tree the remainder. -/
theorem c7_md_decls_precede_trader_decls (fs : List (String × VendorHeader))
    (mh th : VendorHeader) (defs0 : List String)
    (hmd : fs.lookup mdPath = some mh) (hmdwf : mh.wellFormed = true)
    (htr : fs.lookup traderPath = some th) (htrwf : th.wellFormed = true)
    (hguard : "WRAPPER_H" ∉ defs0) :
    ∃ out defs1, preprocess fs defs0 = .ok (out, defs1) ∧
      includedPaths out = [mdPath, traderPath] ∧
      (emittedDecls out).take mh.decls.length = mh.decls ∧
      (emittedDecls out).drop mh.decls.length = th.decls :=
  ⟨_, _, preprocess_success fs mh th defs0 hmd hmdwf htr htrwf hguard, by
    simp [includedPaths], by
    simp [emittedDecls, List.take_left], by
    simp [emittedDecls, List.drop_left]⟩

/-- C7 witness: the concrete configuration, with the split spelled out. -/
theorem c7_witness :
    fsSample.lookup mdPath = some mdSample ∧ mdSample.wellFormed = true ∧
    fsSample.lookup traderPath = some traderSample ∧ traderSample.wellFormed = true ∧
    "WRAPPER_H" ∉ ([] : List String) ∧
    (∃ out defs1, preprocess fsSample [] = .ok (out, defs1) ∧
      includedPaths out = [mdPath, traderPath] ∧
      (emittedDecls out).take mdSample.decls.length = mdSample.decls ∧
      (emittedDecls out).drop mdSample.decls.length = traderSample.decls) :=
  ⟨by decide, by decide, by decide, by decide, by simp,
    c7_md_decls_precede_trader_decls fsSample mdSample traderSample []
      (by decide) (by decide) (by decide) (by decide) (by simp)⟩

/-- C8: apart from what the two vendor headers introduce, `wrapper.h`
itself defines exactly one name, the guard `WRAPPER_H`: a name is defined
after preprocessing precisely when it comes from one of the vendor headers,
is the guard itself, or was already defined beforehand. -/
theorem c8_defines_only_the_guard (fs : List (String × VendorHeader))
    (mh th : VendorHeader) (defs0 : List String)
    (hmd : fs.lookup mdPath = some mh) (hmdwf : mh.wellFormed = true)
    (htr : fs.lookup traderPath = some th) (htrwf : th.wellFormed = true)
    (hguard : "WRAPPER_H" ∉ defs0) :
    ∃ out defs1, preprocess fs defs0 = .ok (out, defs1) ∧
      ∀ n : String, n ∈ defs1 ↔
        (n ∈ th.defines ∨ n ∈ mh.defines ∨ n = "WRAPPER_H" ∨ n ∈ defs0) :=
  ⟨_, _, preprocess_success fs mh th defs0 hmd hmdwf htr htrwf hguard, by
    intro n
    simp [List.mem_append, or_assoc]⟩

/-- C8 witness: the concrete configuration; the guard is the only name the
file adds beyond the vendor defines. -/
theorem c8_witness :
    fsSample.lookup mdPath = some mdSample ∧ mdSample.wellFormed = true ∧
    fsSample.lookup traderPath = some traderSample ∧ traderSample.wellFormed = true ∧
    "WRAPPER_H" ∉ ([] : List String) ∧
    (∃ out defs1, preprocess fsSample [] = .ok (out, defs1) ∧
      ∀ n : String, n ∈ defs1 ↔
        (n ∈ traderSample.defines ∨ n ∈ mdSample.defines ∨ n = "WRAPPER_H" ∨
          n ∈ ([] : List String))) :=
  ⟨by decide, by decide, by decide, by decide, by simp,
    c8_defines_only_the_guard fsSample mdSample traderSample []
      (by decide) (by decide) (by decide) (by decide) (by simp)⟩

end Wrapper
